import Mathlib

/-!
# JNI helper functions of the Olm Android binding

Shallow embedding of `olm_jni_helper.cpp` (functions `setRandomInBuffer`,
`getInstanceId` and the five typed getters).

Conventions of the embedding

* Data model LP64: `int` and `jsize` are 32 bit signed, `size_t` and pointers are
  64 bit unsigned, `jlong` is 64 bit signed.  Machine integers are `Nat` or `Int`
  with explicit reduction modulo a power of two at every conversion.
* References and pointers (`jclass`, `jobject`, `jmethodID`, `uint8_t*`, ...) are
  natural numbers, the value `0` being `NULL`; a C test `if (p)` is `p ≠ 0`.
* The JNI function table is a record of answer functions (`JNIEnv`).  Within one
  run every JNI function is called at most once for given arguments, so a record
  of functions of the arguments covers every possible sequence of answers.
* The storage of the temporary Java array, of the native buffer returned by
  `GetByteArrayElements` and of the output block is tracked explicitly, as maps
  from offsets to bytes.
* Every call made through the environment pointer is recorded, in order, in the
  field `calls` of the result.
* The logging macros `LOGE`, `LOGD` and `LOGW` expand to nothing (`olm_jni.h`).
-/

namespace OlmJni

/-! ## Machine integers and memory -/

/-- Raw byte value. -/
abbrev Byte := Nat

/-- Contents of a block of memory, by byte offset. -/
abbrev Mem := Nat → Byte

/-- A block whose bytes are all zero. -/
def zeroMem : Mem := fun _ => 0

/-- Conversion of an unsigned value to `int` (32 bit, two complement). -/
def toInt (n : Nat) : Int :=
  if n % 2 ^ 32 < 2 ^ 31 then ((n % 2 ^ 32 : Nat) : Int) else ((n % 2 ^ 32 : Nat) : Int) - 2 ^ 32

/-- Conversion of a signed value to `size_t` (64 bit, unsigned). -/
def toSizeT (i : Int) : Nat := (i % 2 ^ 64).toNat

/-- Product of two `size_t` values. -/
def mulSizeT (a b : Nat) : Nat := a * b % 2 ^ 64

/-- The value of `sizeof(uint8_t)`. -/
def sizeof_uint8_t : Nat := 1

/-- The libc routine `memcpy(dst, src, n)`: the new contents of `dst`. -/
def memcpy (dst src : Mem) (n : Nat) : Mem := fun i => if i < n then src i else dst i

/-- The libc routine `memset(dst, c, n)`: the new contents of `dst`. -/
def memset (dst : Mem) (c : Byte) (n : Nat) : Mem := fun i => if i < n then c else dst i

/-- Range of the JNI type `jlong`. -/
def isJlong (v : Int) : Prop := -(2 ^ 63) ≤ v ∧ v < 2 ^ 63

instance (v : Int) : Decidable (isJlong v) := by unfold isJlong; infer_instance

/-- C cast of a `jlong` to a pointer (64 bit). -/
def ptrOfJlong (v : Int) : Nat := (v % 2 ^ 64).toNat

/-- C cast of a pointer (64 bit) to a `jlong`. -/
def jlongOfPtr (p : Nat) : Int :=
  if p % 2 ^ 64 < 2 ^ 63 then ((p % 2 ^ 64 : Nat) : Int) else ((p % 2 ^ 64 : Nat) : Int) - 2 ^ 64

/-! ## The JNI environment -/

abbrev jobject := Nat
abbrev jclass := Nat
abbrev jmethodID := Nat
abbrev jfieldID := Nat
abbrev jbyteArray := Nat
abbrev jthrowable := Nat

/-- The JNI constant `JNI_TRUE`. -/
def JNI_TRUE : Nat := 1

/-- The JNI constant `JNI_ABORT`. -/
def JNI_ABORT : Int := 2

/-- One call through the JNI function table, with its arguments. -/
inductive JniCall where
  | FindClass (name : String)
  | GetMethodID (cls : jclass) (name sig : String)
  | NewObject (cls : jclass) (ctor : jmethodID)
  | NewByteArray (len : Int)
  | CallVoidMethod (obj : jobject) (method : jmethodID) (arg : jbyteArray)
  | ExceptionOccurred
  | GetByteArrayElements (array : jbyteArray)
  | SetByteArrayRegion (array : jbyteArray) (start len : Int)
  | ReleaseByteArrayElements (array : jbyteArray) (mode : Int)
  | DeleteLocalRef (ref : jobject)
  | IsInstanceOf (obj : jobject) (cls : jclass)
  | GetObjectClass (obj : jobject)
  | GetFieldID (cls : jclass) (name sig : String)
  | GetLongField (obj : jobject) (field : jfieldID)
  deriving DecidableEq, Repr

/-- The answers of the host runtime to the JNI calls the helpers make.
`CallVoidMethod obj m arr before` is the storage of the array `arr` after the
invoked method returned, given its storage `before` the call.
`GetByteArrayElements arr` is the pointer handed out (`0` on failure) and
`elementsAreCopy arr` tells whether that pointer designates a copy of the array
or the pinned storage of the array itself. -/
structure JNIEnv where
  FindClass : String → jclass
  GetMethodID : jclass → String → String → jmethodID
  NewObject : jclass → jmethodID → jobject
  NewByteArray : Int → jbyteArray
  CallVoidMethod : jobject → jmethodID → jbyteArray → Mem → Mem
  ExceptionOccurred : jthrowable
  GetByteArrayElements : jbyteArray → Nat
  elementsAreCopy : jbyteArray → Bool
  IsInstanceOf : jobject → jclass → Nat
  GetObjectClass : jobject → jclass
  GetFieldID : jclass → String → String → jfieldID
  GetLongField : jobject → jfieldID → Int
  GetLongField_range : ∀ o f, isJlong (GetLongField o f)

/-- The allocator: `malloc n` is the pointer returned (`0` on failure) and
`fresh` the indeterminate contents of a block just allocated. -/
structure Libc where
  malloc : Nat → Nat
  fresh : Mem

/-! ## setRandomInBuffer -/

/-- Observable state of a run of `setRandomInBuffer`. -/
structure RandomState where
  /-- the local `retCode`, returned at the end -/
  retCode : Bool
  /-- the local `bufferLen` -/
  bufferLen : Int
  /-- the pointer stored in `*aBuffer2Ptr`, once the function has assigned it -/
  slot : Option Nat
  /-- contents of the block `*aBuffer2Ptr` points to -/
  out : Mem
  /-- number of elements of the temporary Java array -/
  arrayLen : Nat
  /-- storage of the temporary Java array -/
  array : Mem
  /-- storage of the native copy handed out by `GetByteArrayElements` -/
  copy : Mem
  /-- whether `buffer` designates the copy (otherwise the pinned array storage) -/
  isCopy : Bool
  /-- storage of the temporary Java array right after `CallVoidMethod` returned -/
  filled : Mem
  /-- the JNI calls made so far, in order -/
  calls : List JniCall

namespace RandomState

/-- Record one JNI call. -/
def call (s : RandomState) (c : JniCall) : RandomState := { s with calls := s.calls ++ [c] }

/-- The bytes the native pointer `buffer` designates. -/
def readBuf (s : RandomState) : Mem := if s.isCopy then s.copy else s.array

/-- Store through the native pointer `buffer`. -/
def writeBuf (s : RandomState) (m : Mem) : RandomState :=
  if s.isCopy then { s with copy := m } else { s with array := m }

/-- JNI `SetByteArrayRegion(array, start, len, buf)`: copies `len` elements of `buf`
into the array from index `start`; a region that does not lie inside the array
raises `ArrayIndexOutOfBoundsException` and leaves the array unchanged. -/
def setByteArrayRegion (s : RandomState) (start len : Int) (buf : Mem) : RandomState :=
  if 0 ≤ start ∧ 0 ≤ len ∧ start + len ≤ (s.arrayLen : Int) then
    { s with array := fun i =>
        if start.toNat ≤ i ∧ i < start.toNat + len.toNat then buf (i - start.toNat) else s.array i }
  else s

/-- JNI `ReleaseByteArrayElements(array, elems, mode)`: with `JNI_ABORT` the native
buffer is given up and nothing is copied back; with the other modes a copy is
written back to the array. -/
def releaseByteArrayElements (s : RandomState) (mode : Int) : RandomState :=
  if mode = JNI_ABORT then s
  else if s.isCopy then { s with array := fun i => if i < s.arrayLen then s.copy i else s.array i }
  else s

end RandomState

/-- Embedding of `setRandomInBuffer(env, aBuffer2Ptr, aRandomSize)`
(`olm_jni_helper.cpp`, lines 30 to 108).  The states `s0` to `s11` follow the
statements of the source in order. -/
def setRandomInBuffer (env : JNIEnv) (libc : Libc) (aBuffer2Ptr : Nat) (aRandomSize : Nat) :
    RandomState :=
  -- line 33: int bufferLen = aRandomSize*sizeof(uint8_t)
  let bufferLen : Int := toInt (mulSizeT aRandomSize sizeof_uint8_t)
  let s0 : RandomState :=
    { retCode := false, bufferLen := bufferLen, slot := none, out := zeroMem, arrayLen := 0,
      array := zeroMem, copy := zeroMem, isCopy := false, filled := zeroMem, calls := [] }
  if aBuffer2Ptr = 0 then s0
  else if aRandomSize = 0 then s0
  else
    -- line 43: *aBuffer2Ptr = (uint8_t*)malloc(bufferLen)
    let p := libc.malloc (toSizeT bufferLen)
    let s1 : RandomState := { s0 with slot := some p, out := libc.fresh }
    if p = 0 then s1
    else
      let cls := env.FindClass "java/security/SecureRandom"
      let s2 := s1.call (.FindClass "java/security/SecureRandom")
      if cls ≠ 0 then
        let constructor := env.GetMethodID cls "<init>" "()V"
        let nextByteMethod := env.GetMethodID cls "nextBytes" "([B)V"
        let s3 := (s2.call (.GetMethodID cls "<init>" "()V")).call
          (.GetMethodID cls "nextBytes" "([B)V")
        -- line 60: only the constructor is tested
        if constructor ≠ 0 then
          let newObj := env.NewObject cls constructor
          let tempByteArray := env.NewByteArray bufferLen
          let s4 : RandomState :=
            { (s3.call (.NewObject cls constructor)).call (.NewByteArray bufferLen) with
              arrayLen := bufferLen.toNat, array := zeroMem }
          let s5 : RandomState :=
            if newObj ≠ 0 ∧ tempByteArray ≠ 0 then
              -- line 67: nextBytes fills the array
              let afterCall := env.CallVoidMethod newObj nextByteMethod tempByteArray s4.array
              let s6 : RandomState :=
                { (s4.call (.CallVoidMethod newObj nextByteMethod tempByteArray)).call
                    .ExceptionOccurred with array := afterCall, filled := afterCall }
              if env.ExceptionOccurred = 0 then
                let buffer := env.GetByteArrayElements tempByteArray
                let s7 : RandomState :=
                  { s6.call (.GetByteArrayElements tempByteArray) with
                    isCopy := env.elementsAreCopy tempByteArray, copy := s6.array }
                if buffer ≠ 0 then
                  -- lines 75 and 76: memcpy, retCode = true
                  let s8 : RandomState :=
                    { s7 with out := memcpy s7.out s7.readBuf (toSizeT bufferLen), retCode := true }
                  -- lines 79 to 83: memset, SetByteArrayRegion, ReleaseByteArrayElements
                  let s9 := s8.writeBuf (memset s8.readBuf 0 (toSizeT bufferLen))
                  let s10 := (s9.setByteArrayRegion 0 bufferLen s9.readBuf).call
                    (.SetByteArrayRegion tempByteArray 0 bufferLen)
                  (s10.releaseByteArrayElements JNI_ABORT).call
                    (.ReleaseByteArrayElements tempByteArray JNI_ABORT)
                else s7
              else s6
            else s4
          -- lines 88 to 96: the local references are deleted
          let s11 := if tempByteArray ≠ 0 then s5.call (.DeleteLocalRef tempByteArray) else s5
          if newObj ≠ 0 then s11.call (.DeleteLocalRef newObj) else s11
        else s3
      else s2

/-! ## getInstanceId and the typed getters -/

/-- Result of a run of `getInstanceId`: the value returned and the JNI calls made. -/
structure IdResult where
  instanceId : Int
  calls : List JniCall

/-- Embedding of `getInstanceId(aJniEnv, aJavaObject, aCallingClass)`
(`olm_jni_helper.cpp`, lines 117 to 159); a null `aJniEnv` is `none`. -/
def getInstanceId (aJniEnv : Option JNIEnv) (aJavaObject : jobject) (aCallingClass : String) :
    IdResult :=
  match aJniEnv with
  | none => { instanceId := 0, calls := [] }
  | some env =>
    let requiredClass := env.FindClass aCallingClass
    let c1 : List JniCall := [.FindClass aCallingClass]
    -- the operator && evaluates IsInstanceOf only when requiredClass is not null
    let c2 : List JniCall :=
      if requiredClass ≠ 0 then c1 ++ [.IsInstanceOf aJavaObject requiredClass] else c1
    if requiredClass ≠ 0 ∧ JNI_TRUE ≠ env.IsInstanceOf aJavaObject requiredClass then
      { instanceId := 0, calls := c2 }
    else
      let loaderClass := env.GetObjectClass aJavaObject
      let c3 := c2 ++ [.GetObjectClass aJavaObject]
      if loaderClass ≠ 0 then
        let instanceIdField := env.GetFieldID loaderClass "mNativeId" "J"
        let c4 := c3 ++ [.GetFieldID loaderClass "mNativeId" "J"]
        if instanceIdField ≠ 0 then
          { instanceId := env.GetLongField aJavaObject instanceIdField,
            calls := c4 ++ [.GetLongField aJavaObject instanceIdField,
                            .DeleteLocalRef loaderClass] }
        else
          { instanceId := 0, calls := c4 ++ [.DeleteLocalRef loaderClass] }
      else
        { instanceId := 0, calls := c3 }

/-- The class name constants of `olm_jni_helper.h` (namespace `AndroidOlmSdk`);
the header is not part of the sources at hand, so the names are parameters. -/
structure ClassNames where
  CLASS_OLM_ACCOUNT : String
  CLASS_OLM_SESSION : String
  CLASS_OLM_INBOUND_GROUP_SESSION : String
  CLASS_OLM_OUTBOUND_GROUP_SESSION : String
  CLASS_OLM_UTILITY : String

/-- Embedding of `getAccountInstanceId`: the pointer returned. -/
def getAccountInstanceId (K : ClassNames) (aJniEnv : Option JNIEnv) (aJavaObject : jobject) :
    Nat :=
  ptrOfJlong (getInstanceId aJniEnv aJavaObject K.CLASS_OLM_ACCOUNT).instanceId

/-- Embedding of `getSessionInstanceId`: the pointer returned. -/
def getSessionInstanceId (K : ClassNames) (aJniEnv : Option JNIEnv) (aJavaObject : jobject) :
    Nat :=
  ptrOfJlong (getInstanceId aJniEnv aJavaObject K.CLASS_OLM_SESSION).instanceId

/-- Embedding of `getInboundGroupSessionInstanceId`: the pointer returned. -/
def getInboundGroupSessionInstanceId (K : ClassNames) (aJniEnv : Option JNIEnv)
    (aJavaObject : jobject) : Nat :=
  ptrOfJlong (getInstanceId aJniEnv aJavaObject K.CLASS_OLM_INBOUND_GROUP_SESSION).instanceId

/-- Embedding of `getOutboundGroupSessionInstanceId`: the pointer returned. -/
def getOutboundGroupSessionInstanceId (K : ClassNames) (aJniEnv : Option JNIEnv)
    (aJavaObject : jobject) : Nat :=
  ptrOfJlong (getInstanceId aJniEnv aJavaObject K.CLASS_OLM_OUTBOUND_GROUP_SESSION).instanceId

/-- Embedding of `getUtilityInstanceId`: the pointer returned. -/
def getUtilityInstanceId (K : ClassNames) (aJniEnv : Option JNIEnv) (aJavaObject : jobject) :
    Nat :=
  ptrOfJlong (getInstanceId aJniEnv aJavaObject K.CLASS_OLM_UTILITY).instanceId

/-! ## Concrete environments -/

/-- A host on which every call succeeds; `nextBytes` writes the byte `7 * i + 3`
(modulo 256) at index `i`, and `GetByteArrayElements` hands out a copy. -/
def envOk : JNIEnv where
  FindClass := fun _ => 11
  GetMethodID := fun _ _ _ => 12
  NewObject := fun _ _ => 13
  NewByteArray := fun _ => 14
  CallVoidMethod := fun _ _ _ _ => fun i => (7 * i + 3) % 256
  ExceptionOccurred := 0
  GetByteArrayElements := fun _ => 15
  elementsAreCopy := fun _ => true
  IsInstanceOf := fun _ _ => 1
  GetObjectClass := fun _ => 16
  GetFieldID := fun _ _ _ => 17
  GetLongField := fun _ _ => 4096
  GetLongField_range := by intro _ _; show isJlong 4096; decide

/-- An allocator that always succeeds; fresh blocks hold the byte `170`. -/
def libcOk : Libc where
  malloc := fun _ => 1000
  fresh := fun _ => 170

/-- As `envOk`, but `GetByteArrayElements` hands out the pinned storage of the array. -/
def envPinned : JNIEnv := { envOk with elementsAreCopy := fun _ => false }

/-- A host that tells classes and methods apart: only the class
`java/security/SecureRandom` is found, its constructor has the method id 12 and
its method `nextBytes` the id 18; invoking the id 18 writes the byte `7 * i + 3`
(modulo 256) at index `i`, invoking any other id writes the byte 99 everywhere. -/
def envSecureRandom : JNIEnv :=
  { envOk with
    FindClass := fun name => if name = "java/security/SecureRandom" then 11 else 0
    GetMethodID := fun _ name _ =>
      if name = "<init>" then 12 else if name = "nextBytes" then 18 else 0
    CallVoidMethod := fun _ m _ _ => if m = 18 then fun i => (7 * i + 3) % 256 else fun _ => 99 }

/-- A host whose class `java/security/SecureRandom` has no method `nextBytes`: the
lookup of that method answers `NULL` and, as JNI prescribes, leaves a
`NoSuchMethodError` (reference 19) pending. -/
def envMissingNextBytes : JNIEnv :=
  { envOk with
    GetMethodID := fun _ name _ => if name = "nextBytes" then 0 else 12
    ExceptionOccurred := 19 }

/-- As `envOk`, but no class can be found and the object is an instance of no class. -/
def envNoClass : JNIEnv :=
  { envOk with FindClass := fun _ => 0, IsInstanceOf := fun _ _ => 0 }

/-- As `envOk`, but the object is an instance of no class. -/
def envNotInstance : JNIEnv := { envOk with IsInstanceOf := fun _ _ => 0 }

/-- As `envOk`, but `GetObjectClass` answers `NULL`. -/
def envNoObjectClass : JNIEnv := { envOk with GetObjectClass := fun _ => 0 }

/-- As `envOk`, but the class of the object has no field `mNativeId`. -/
def envNoField : JNIEnv := { envOk with GetFieldID := fun _ _ _ => 0 }

/-- An allocator that always fails. -/
def libcFail : Libc where
  malloc := fun _ => 0
  fresh := fun _ => 170

/-- The class names used by the Java side of the binding. -/
def olmClassNames : ClassNames where
  CLASS_OLM_ACCOUNT := "org/matrix/olm/OlmAccount"
  CLASS_OLM_SESSION := "org/matrix/olm/OlmSession"
  CLASS_OLM_INBOUND_GROUP_SESSION := "org/matrix/olm/OlmInboundGroupSession"
  CLASS_OLM_OUTBOUND_GROUP_SESSION := "org/matrix/olm/OlmOutboundGroupSession"
  CLASS_OLM_UTILITY := "org/matrix/olm/OlmUtility"

/-! ## Predicates used in the statements -/

/-- The object `obj` is an instance of the class named `name`: the host finds the
class and `IsInstanceOf` answers `JNI_TRUE` for it. -/
def instanceOfNamed (env : JNIEnv) (obj : jobject) (name : String) : Prop :=
  env.FindClass name ≠ 0 ∧ env.IsInstanceOf obj (env.FindClass name) = JNI_TRUE

instance (env : JNIEnv) (obj : jobject) (name : String) :
    Decidable (instanceOfNamed env obj name) := by
  unfold instanceOfNamed; infer_instance

/-- The JNI rule for `GetMethodID`, for the two lookups `setRandomInBuffer` makes:
a lookup that answers `NULL` has thrown (`NoSuchMethodError`,
`ExceptionInInitializerError` or `OutOfMemoryError`); the function never clears
exceptions, so the exception is still pending when `ExceptionOccurred` is asked
on line 69. -/
def failedLookupThrows (env : JNIEnv) : Prop :=
  (env.GetMethodID (env.FindClass "java/security/SecureRandom") "<init>" "()V" = 0 ∨
    env.GetMethodID (env.FindClass "java/security/SecureRandom") "nextBytes" "([B)V" = 0) →
  env.ExceptionOccurred ≠ 0

instance (env : JNIEnv) : Decidable (failedLookupThrows env) := by
  unfold failedLookupThrows; infer_instance

/-- The call reads a `long` field. -/
def JniCall.isGetLongField : JniCall → Bool
  | .GetLongField _ _ => true
  | _ => false

/-! ## Integer conversions -/

theorem toInt_mulSizeT_of_lt (n : Nat) (h : n < 2 ^ 31) :
    toInt (mulSizeT n sizeof_uint8_t) = (n : Int) := by
  unfold toInt mulSizeT sizeof_uint8_t
  have h1 : n * 1 % 2 ^ 64 % 2 ^ 32 = n := by omega
  rw [h1, if_pos h]

theorem toSizeT_natCast_of_lt (n : Nat) (h : n < 2 ^ 31) : toSizeT (n : Int) = n := by
  unfold toSizeT
  omega

theorem jlongOfPtr_ptrOfJlong (v : Int) (h : isJlong v) : jlongOfPtr (ptrOfJlong v) = v := by
  unfold isJlong at h
  unfold jlongOfPtr ptrOfJlong
  split_ifs <;> omega

theorem ptrOfJlong_eq_zero_iff (v : Int) (h : isJlong v) : ptrOfJlong v = 0 ↔ v = 0 := by
  unfold isJlong at h
  unfold ptrOfJlong
  constructor <;> intro h1 <;> omega

/-! ## setRandomInBuffer: shape of a successful run -/

/-- A run that returns `true` passed every test the function makes: the arguments
are not null, the output block was allocated, the class, the constructor, the
object and the array were obtained, no exception was reported and the elements
were handed out. -/
theorem setRandomInBuffer_true_path (env : JNIEnv) (libc : Libc) (p n : Nat)
    (h : (setRandomInBuffer env libc p n).retCode = true) :
    p ≠ 0 ∧ n ≠ 0 ∧
    libc.malloc (toSizeT (toInt (mulSizeT n sizeof_uint8_t))) ≠ 0 ∧
    env.FindClass "java/security/SecureRandom" ≠ 0 ∧
    env.GetMethodID (env.FindClass "java/security/SecureRandom") "<init>" "()V" ≠ 0 ∧
    env.NewObject (env.FindClass "java/security/SecureRandom")
      (env.GetMethodID (env.FindClass "java/security/SecureRandom") "<init>" "()V") ≠ 0 ∧
    env.NewByteArray (toInt (mulSizeT n sizeof_uint8_t)) ≠ 0 ∧
    env.ExceptionOccurred = 0 ∧
    env.GetByteArrayElements (env.NewByteArray (toInt (mulSizeT n sizeof_uint8_t))) ≠ 0 := by
  by_cases h1 : p = 0
  · simp [setRandomInBuffer, h1] at h
  by_cases h2 : n = 0
  · simp [setRandomInBuffer, h1, h2] at h
  by_cases h3 : libc.malloc (toSizeT (toInt (mulSizeT n sizeof_uint8_t))) = 0
  · simp [setRandomInBuffer, h1, h2, h3] at h
  by_cases h4 : env.FindClass "java/security/SecureRandom" = 0
  · simp [setRandomInBuffer, h1, h2, h3, h4, RandomState.call] at h
  by_cases h5 : env.GetMethodID (env.FindClass "java/security/SecureRandom") "<init>" "()V" = 0
  · simp [setRandomInBuffer, h1, h2, h3, h4, h5, RandomState.call] at h
  by_cases h6 : env.NewObject (env.FindClass "java/security/SecureRandom")
      (env.GetMethodID (env.FindClass "java/security/SecureRandom") "<init>" "()V") = 0
  · simp [setRandomInBuffer, h1, h2, h3, h4, h5, h6, RandomState.call] at h
    split_ifs at h
  by_cases h7 : env.NewByteArray (toInt (mulSizeT n sizeof_uint8_t)) = 0
  · simp [setRandomInBuffer, h1, h2, h3, h4, h5, h6, h7, RandomState.call] at h
  by_cases h8 : env.ExceptionOccurred = 0
  swap
  · simp [setRandomInBuffer, h1, h2, h3, h4, h5, h6, h7, h8, RandomState.call] at h
  by_cases h9 : env.GetByteArrayElements (env.NewByteArray (toInt (mulSizeT n sizeof_uint8_t))) = 0
  · simp [setRandomInBuffer, h1, h2, h3, h4, h5, h6, h7, h8, h9, RandomState.call] at h
  exact ⟨h1, h2, h3, h4, h5, h6, h7, h8, h9⟩

/-- When the size fits in an `int`, a successful run has `bufferLen = aRandomSize`,
the output block is the fresh block with its first `aRandomSize` bytes replaced by
those of the filled array, and the first `aRandomSize` bytes of the temporary array
are zero at return. -/
theorem setRandomInBuffer_success (env : JNIEnv) (libc : Libc) (p n : Nat) (hn : n < 2 ^ 31)
    (h : (setRandomInBuffer env libc p n).retCode = true) :
    (setRandomInBuffer env libc p n).bufferLen = (n : Int) ∧
    (setRandomInBuffer env libc p n).out =
      memcpy libc.fresh (setRandomInBuffer env libc p n).filled n ∧
    ∀ i, i < n → (setRandomInBuffer env libc p n).array i = 0 := by
  obtain ⟨h1, h2, h3, h4, h5, h6, h7, h8, h9⟩ := setRandomInBuffer_true_path env libc p n h
  have e1 := toInt_mulSizeT_of_lt n hn
  have e2 := toSizeT_natCast_of_lt n hn
  rw [e1] at h3 h7 h9
  rw [e2] at h3
  cases hc : env.elementsAreCopy (env.NewByteArray (n : Int))
  · simp [setRandomInBuffer, e1, e2, h1, h2, h3, h4, h5, h6, h7, h8, h9, hc, RandomState.call,
      RandomState.readBuf, RandomState.writeBuf, RandomState.setByteArrayRegion,
      RandomState.releaseByteArrayElements, JNI_ABORT, memset]
    intro i hi hle
    omega
  · simp [setRandomInBuffer, e1, e2, h1, h2, h3, h4, h5, h6, h7, h8, h9, hc, RandomState.call,
      RandomState.readBuf, RandomState.writeBuf, RandomState.setByteArrayRegion,
      RandomState.releaseByteArrayElements, JNI_ABORT, memset]
    intro i hi
    simp [hi]

/-- On a successful run with a size that fits in an `int`, the method invoked is
the one looked up under the name `nextBytes`, on the object created from the class
`java/security/SecureRandom`, with the temporary array as argument; the snapshot
`filled` is the storage the host left in that array. -/
theorem setRandomInBuffer_filled (env : JNIEnv) (libc : Libc) (p n : Nat) (hn : n < 2 ^ 31)
    (h : (setRandomInBuffer env libc p n).retCode = true) :
    JniCall.CallVoidMethod
        (env.NewObject (env.FindClass "java/security/SecureRandom")
          (env.GetMethodID (env.FindClass "java/security/SecureRandom") "<init>" "()V"))
        (env.GetMethodID (env.FindClass "java/security/SecureRandom") "nextBytes" "([B)V")
        (env.NewByteArray (n : Int)) ∈ (setRandomInBuffer env libc p n).calls ∧
    (setRandomInBuffer env libc p n).filled =
      env.CallVoidMethod
        (env.NewObject (env.FindClass "java/security/SecureRandom")
          (env.GetMethodID (env.FindClass "java/security/SecureRandom") "<init>" "()V"))
        (env.GetMethodID (env.FindClass "java/security/SecureRandom") "nextBytes" "([B)V")
        (env.NewByteArray (n : Int)) zeroMem := by
  obtain ⟨h1, h2, h3, h4, h5, h6, h7, h8, h9⟩ := setRandomInBuffer_true_path env libc p n h
  have e1 := toInt_mulSizeT_of_lt n hn
  have e2 := toSizeT_natCast_of_lt n hn
  rw [e1] at h3 h7 h9
  rw [e2] at h3
  cases hc : env.elementsAreCopy (env.NewByteArray (n : Int))
  · simp [setRandomInBuffer, e1, e2, h1, h2, h3, h4, h5, h6, h7, h8, h9, hc, RandomState.call,
      RandomState.readBuf, RandomState.writeBuf, RandomState.setByteArrayRegion,
      RandomState.releaseByteArrayElements, JNI_ABORT]
  · simp [setRandomInBuffer, e1, e2, h1, h2, h3, h4, h5, h6, h7, h8, h9, hc, RandomState.call,
      RandomState.readBuf, RandomState.writeBuf, RandomState.setByteArrayRegion,
      RandomState.releaseByteArrayElements, JNI_ABORT]

/-- The failures of the host that the function does test make it return `false`:
a class or a constructor that is not found, an object or an array that cannot be
created, a pending exception, or elements that are not handed out. -/
theorem setRandomInBuffer_false_of_tested_failure (env : JNIEnv) (libc : Libc) (p n : Nat)
    (h : env.FindClass "java/security/SecureRandom" = 0 ∨
      env.GetMethodID (env.FindClass "java/security/SecureRandom") "<init>" "()V" = 0 ∨
      env.NewObject (env.FindClass "java/security/SecureRandom")
        (env.GetMethodID (env.FindClass "java/security/SecureRandom") "<init>" "()V") = 0 ∨
      env.NewByteArray (toInt (mulSizeT n sizeof_uint8_t)) = 0 ∨
      env.ExceptionOccurred ≠ 0 ∨
      env.GetByteArrayElements (env.NewByteArray (toInt (mulSizeT n sizeof_uint8_t))) = 0) :
    (setRandomInBuffer env libc p n).retCode = false := by
  cases hr : (setRandomInBuffer env libc p n).retCode
  · rfl
  · obtain ⟨_, _, _, h4, h5, h6, h7, h8, h9⟩ := setRandomInBuffer_true_path env libc p n hr
    rcases h with h | h | h | h | h | h
    · exact absurd h h4
    · exact absurd h h5
    · exact absurd h h6
    · exact absurd h h7
    · exact absurd h8 h
    · exact absurd h h9

/-- The field `bufferLen` of the result is the value computed on entry. -/
theorem setRandomInBuffer_bufferLen (env : JNIEnv) (libc : Libc) (p n : Nat) :
    (setRandomInBuffer env libc p n).bufferLen = toInt (mulSizeT n sizeof_uint8_t) := by
  by_cases h1 : p = 0
  · simp [setRandomInBuffer, h1]
  by_cases h2 : n = 0
  · simp [setRandomInBuffer, h1, h2]
  by_cases h3 : libc.malloc (toSizeT (toInt (mulSizeT n sizeof_uint8_t))) = 0
  · simp [setRandomInBuffer, h1, h2, h3]
  by_cases h4 : env.FindClass "java/security/SecureRandom" = 0
  · simp [setRandomInBuffer, h1, h2, h3, h4, RandomState.call]
  by_cases h5 : env.GetMethodID (env.FindClass "java/security/SecureRandom") "<init>" "()V" = 0
  · simp [setRandomInBuffer, h1, h2, h3, h4, h5, RandomState.call]
  by_cases h6 : env.NewObject (env.FindClass "java/security/SecureRandom")
      (env.GetMethodID (env.FindClass "java/security/SecureRandom") "<init>" "()V") = 0
  · simp [setRandomInBuffer, h1, h2, h3, h4, h5, h6, RandomState.call]
    split_ifs <;> rfl
  by_cases h7 : env.NewByteArray (toInt (mulSizeT n sizeof_uint8_t)) = 0
  · simp [setRandomInBuffer, h1, h2, h3, h4, h5, h6, h7, RandomState.call]
  by_cases h8 : env.ExceptionOccurred = 0
  swap
  · simp [setRandomInBuffer, h1, h2, h3, h4, h5, h6, h7, h8, RandomState.call]
  by_cases h9 : env.GetByteArrayElements (env.NewByteArray (toInt (mulSizeT n sizeof_uint8_t))) = 0
  · simp [setRandomInBuffer, h1, h2, h3, h4, h5, h6, h7, h8, h9, RandomState.call]
  cases hc : env.elementsAreCopy (env.NewByteArray (toInt (mulSizeT n sizeof_uint8_t)))
  · simp [setRandomInBuffer, h1, h2, h3, h4, h5, h6, h7, h8, h9, hc, RandomState.call,
      RandomState.readBuf, RandomState.writeBuf, RandomState.setByteArrayRegion,
      RandomState.releaseByteArrayElements, JNI_ABORT]
  · simp [setRandomInBuffer, h1, h2, h3, h4, h5, h6, h7, h8, h9, hc, RandomState.call,
      RandomState.readBuf, RandomState.writeBuf, RandomState.setByteArrayRegion,
      RandomState.releaseByteArrayElements, JNI_ABORT]
    split_ifs <;> rfl

/-- For a size that fits in an `int`, `bufferLen` equals `aRandomSize`. -/
theorem setRandomInBuffer_bufferLen_of_lt (env : JNIEnv) (libc : Libc) (p n : Nat)
    (hn : n < 2 ^ 31) : (setRandomInBuffer env libc p n).bufferLen = (n : Int) := by
  rw [setRandomInBuffer_bufferLen, toInt_mulSizeT_of_lt n hn]

/-! ## setRandomInBuffer: the claims -/

/-- C1: on a host that follows the JNI rule for failed method lookups,
`setRandomInBuffer` returns `false` whenever the secure random source is not
available: the class is not found, the constructor or the method `nextBytes` is
not found, the object or the array cannot be created, an exception is pending
after the call of `nextBytes`, or the elements of the array are not handed out.
The function tests the constructor only (line 60); a failed lookup of `nextBytes`
is caught by the exception test of line 69. -/
theorem setRandomInBuffer_false_when_random_unavailable (env : JNIEnv) (libc : Libc)
    (p n : Nat) (hjni : failedLookupThrows env)
    (h : env.FindClass "java/security/SecureRandom" = 0 ∨
      env.GetMethodID (env.FindClass "java/security/SecureRandom") "<init>" "()V" = 0 ∨
      env.GetMethodID (env.FindClass "java/security/SecureRandom") "nextBytes" "([B)V" = 0 ∨
      env.NewObject (env.FindClass "java/security/SecureRandom")
        (env.GetMethodID (env.FindClass "java/security/SecureRandom") "<init>" "()V") = 0 ∨
      env.NewByteArray (toInt (mulSizeT n sizeof_uint8_t)) = 0 ∨
      env.ExceptionOccurred ≠ 0 ∨
      env.GetByteArrayElements (env.NewByteArray (toInt (mulSizeT n sizeof_uint8_t))) = 0) :
    (setRandomInBuffer env libc p n).retCode = false := by
  cases hr : (setRandomInBuffer env libc p n).retCode
  · rfl
  · obtain ⟨_, _, _, hcls, hctor, hobj, harr, hexc, helems⟩ :=
      setRandomInBuffer_true_path env libc p n hr
    have hnext :
        env.GetMethodID (env.FindClass "java/security/SecureRandom") "nextBytes" "([B)V" ≠ 0 :=
      fun hz => hjni (Or.inr hz) hexc
    rcases h with h | h | h | h | h | h | h
    · exact absurd h hcls
    · exact absurd h hctor
    · exact absurd h hnext
    · exact absurd h hobj
    · exact absurd h harr
    · exact absurd hexc h
    · exact absurd h helems

/-- Instance of C1 on a host whose class has no method `nextBytes`: the lookup
answers `NULL`, the exception it threw is pending, and the result is `false`. -/
theorem setRandomInBuffer_false_when_random_unavailable_witness :
    envMissingNextBytes.GetMethodID (envMissingNextBytes.FindClass "java/security/SecureRandom")
      "nextBytes" "([B)V" = 0 ∧
    (setRandomInBuffer envMissingNextBytes libcOk 1 4).retCode = false :=
  ⟨by decide,
    setRandomInBuffer_false_when_random_unavailable envMissingNextBytes libcOk 1 4 (by decide)
      (Or.inr (Or.inr (Or.inl (by decide))))⟩

/-- C2: for `aRandomSize < 2^31`, when `setRandomInBuffer` returns `true` the
method invoked on the `SecureRandom` object is the one looked up under the name
`nextBytes`, and every byte `i < aRandomSize` of the output block equals byte `i`
of the temporary Java array as the host left it when that call returned. -/
theorem setRandomInBuffer_output_is_nextBytes_result (env : JNIEnv) (libc : Libc) (p n : Nat)
    (hn : n < 2 ^ 31) (h : (setRandomInBuffer env libc p n).retCode = true) :
    JniCall.CallVoidMethod
        (env.NewObject (env.FindClass "java/security/SecureRandom")
          (env.GetMethodID (env.FindClass "java/security/SecureRandom") "<init>" "()V"))
        (env.GetMethodID (env.FindClass "java/security/SecureRandom") "nextBytes" "([B)V")
        (env.NewByteArray (n : Int)) ∈ (setRandomInBuffer env libc p n).calls ∧
    ∀ i, i < n →
      (setRandomInBuffer env libc p n).out i =
        env.CallVoidMethod
          (env.NewObject (env.FindClass "java/security/SecureRandom")
            (env.GetMethodID (env.FindClass "java/security/SecureRandom") "<init>" "()V"))
          (env.GetMethodID (env.FindClass "java/security/SecureRandom") "nextBytes" "([B)V")
          (env.NewByteArray (n : Int)) zeroMem i := by
  obtain ⟨hcall, hfilled⟩ := setRandomInBuffer_filled env libc p n hn h
  refine ⟨hcall, ?_⟩
  intro i hi
  rw [(setRandomInBuffer_success env libc p n hn h).2.1, hfilled]
  simp [memcpy, hi]

/-- Instance of C2 on a host that tells the constructor (id 12) from `nextBytes`
(id 18) and fills the array only when the id 18 is invoked: the output holds the
bytes 3, 10, 17 that `nextBytes` wrote, not the byte 99 of another method. -/
theorem setRandomInBuffer_output_is_nextBytes_result_witness :
    ((setRandomInBuffer envSecureRandom libcOk 1 3).out 0 = 3 ∧
      (setRandomInBuffer envSecureRandom libcOk 1 3).out 1 = 10 ∧
      (setRandomInBuffer envSecureRandom libcOk 1 3).out 2 = 17) ∧
    JniCall.CallVoidMethod 13 18 14 ∈ (setRandomInBuffer envSecureRandom libcOk 1 3).calls ∧
    ∀ i, i < 3 →
      (setRandomInBuffer envSecureRandom libcOk 1 3).out i =
        envSecureRandom.CallVoidMethod 13 18 14 zeroMem i :=
  ⟨by decide,
    setRandomInBuffer_output_is_nextBytes_result envSecureRandom libcOk 1 3 (by decide)
      (by decide)⟩

/-- C3 (code defect): `bufferLen` is `aRandomSize` narrowed to `int`.  For the
`size_t` value `2^32 + 5` the function returns `true` although only 5 bytes were
allocated, requested from the host and copied: byte 5 of the output block still
holds what the allocator left there. -/
theorem setRandomInBuffer_size_narrowed :
    2 ^ 32 + 5 < 2 ^ 64 ∧
    (setRandomInBuffer envOk libcOk 1 (2 ^ 32 + 5)).retCode = true ∧
    (setRandomInBuffer envOk libcOk 1 (2 ^ 32 + 5)).bufferLen = 5 ∧
    JniCall.NewByteArray 5 ∈ (setRandomInBuffer envOk libcOk 1 (2 ^ 32 + 5)).calls ∧
    (setRandomInBuffer envOk libcOk 1 (2 ^ 32 + 5)).out 4 = 31 ∧
    (setRandomInBuffer envOk libcOk 1 (2 ^ 32 + 5)).out 5 = libcOk.fresh 5 := by
  refine ⟨by decide, by decide, by decide, by decide, by decide, by decide⟩

/-- C4: `setRandomInBuffer` returns `false` and makes no JNI call when `aBuffer2Ptr`
is null, when `aRandomSize` is 0, or when `malloc` fails. -/
theorem setRandomInBuffer_early_failure (env : JNIEnv) (libc : Libc) (p n : Nat)
    (h : p = 0 ∨ n = 0 ∨ libc.malloc (toSizeT (toInt (mulSizeT n sizeof_uint8_t))) = 0) :
    (setRandomInBuffer env libc p n).retCode = false ∧
    (setRandomInBuffer env libc p n).calls = [] := by
  by_cases h1 : p = 0
  · simp [setRandomInBuffer, h1]
  by_cases h2 : n = 0
  · simp [setRandomInBuffer, h1, h2]
  have h3 : libc.malloc (toSizeT (toInt (mulSizeT n sizeof_uint8_t))) = 0 := by
    rcases h with h | h | h
    · exact absurd h h1
    · exact absurd h h2
    · exact h
  simp [setRandomInBuffer, h1, h2, h3]

/-- Instances of C4: a null `aBuffer2Ptr`, a zero size, and a failing allocator. -/
theorem setRandomInBuffer_early_failure_witness :
    ((setRandomInBuffer envOk libcOk 0 3).retCode = false ∧
      (setRandomInBuffer envOk libcOk 0 3).calls = []) ∧
    ((setRandomInBuffer envOk libcOk 1 0).retCode = false ∧
      (setRandomInBuffer envOk libcOk 1 0).calls = []) ∧
    ((setRandomInBuffer envOk libcFail 1 3).retCode = false ∧
      (setRandomInBuffer envOk libcFail 1 3).calls = []) :=
  ⟨setRandomInBuffer_early_failure envOk libcOk 0 3 (Or.inl rfl),
    setRandomInBuffer_early_failure envOk libcOk 1 0 (Or.inr (Or.inl rfl)),
    setRandomInBuffer_early_failure envOk libcFail 1 3 (Or.inr (Or.inr rfl))⟩

/-- C9: for `0 < aRandomSize < 2^31`, when `setRandomInBuffer` returns `true` every
one of the `bufferLen` bytes of the temporary Java array is zero at return, whether
`GetByteArrayElements` handed out a copy or the pinned storage, and the bytes of
the output block are still those of the filled array. -/
theorem setRandomInBuffer_clears_temp_array (env : JNIEnv) (libc : Libc) (p n : Nat)
    (hn : n < 2 ^ 31) (h : (setRandomInBuffer env libc p n).retCode = true) :
    (∀ i : Nat, (i : Int) < (setRandomInBuffer env libc p n).bufferLen →
      (setRandomInBuffer env libc p n).array i = 0) ∧
    (∀ i, i < n →
      (setRandomInBuffer env libc p n).out i = (setRandomInBuffer env libc p n).filled i) := by
  obtain ⟨hlen, hout, harr⟩ := setRandomInBuffer_success env libc p n hn h
  refine ⟨?_, ?_⟩
  · intro i hi
    rw [hlen] at hi
    exact harr i (by omega)
  · intro i hi
    rw [hout]
    simp [memcpy, hi]

/-- Instances of C9 on a host that hands out a copy and on a host that hands out
the pinned storage; the array held the byte 3 at index 0 before the clearing. -/
theorem setRandomInBuffer_clears_temp_array_witness :
    (envOk.elementsAreCopy 14 = true ∧ (setRandomInBuffer envOk libcOk 1 3).filled 0 = 3 ∧
      (∀ i : Nat, (i : Int) < (setRandomInBuffer envOk libcOk 1 3).bufferLen →
        (setRandomInBuffer envOk libcOk 1 3).array i = 0) ∧
      (∀ i, i < 3 → (setRandomInBuffer envOk libcOk 1 3).out i =
        (setRandomInBuffer envOk libcOk 1 3).filled i)) ∧
    (envPinned.elementsAreCopy 14 = false ∧ (setRandomInBuffer envPinned libcOk 1 3).filled 0 = 3 ∧
      (∀ i : Nat, (i : Int) < (setRandomInBuffer envPinned libcOk 1 3).bufferLen →
        (setRandomInBuffer envPinned libcOk 1 3).array i = 0) ∧
      (∀ i, i < 3 → (setRandomInBuffer envPinned libcOk 1 3).out i =
        (setRandomInBuffer envPinned libcOk 1 3).filled i)) :=
  ⟨⟨by decide, by decide,
      setRandomInBuffer_clears_temp_array envOk libcOk 1 3 (by decide) (by decide)⟩,
    ⟨by decide, by decide,
      setRandomInBuffer_clears_temp_array envPinned libcOk 1 3 (by decide) (by decide)⟩⟩

/-! ## getInstanceId -/

/-- The value returned by `getInstanceId` lies in the range of `jlong`. -/
theorem getInstanceId_isJlong (aJniEnv : Option JNIEnv) (obj : jobject) (name : String) :
    isJlong (getInstanceId aJniEnv obj name).instanceId := by
  have hz : isJlong 0 := by decide
  cases aJniEnv with
  | none => simpa [getInstanceId] using hz
  | some env =>
    unfold getInstanceId
    simp only []
    split_ifs <;> first | exact hz | exact env.GetLongField_range _ _

/-- On the path where the instance test passes, the class of the object is
obtained and the field is found, the value returned is the field of the object. -/
theorem getInstanceId_eq_field (env : JNIEnv) (obj : jobject) (name : String)
    (hinst : instanceOfNamed env obj name)
    (hcls : env.GetObjectClass obj ≠ 0)
    (hfld : env.GetFieldID (env.GetObjectClass obj) "mNativeId" "J" ≠ 0) :
    (getInstanceId (some env) obj name).instanceId =
      env.GetLongField obj (env.GetFieldID (env.GetObjectClass obj) "mNativeId" "J") := by
  obtain ⟨h1, h2⟩ := hinst
  simp [getInstanceId, h1, h2, hcls, hfld]

/-- C5: when the object is an instance of the class named `aCallingClass`,
`GetObjectClass` succeeds and the class has a `long` field `mNativeId`,
`getInstanceId` returns exactly the value of that field of the object. -/
theorem getInstanceId_reads_mNativeId (env : JNIEnv) (obj : jobject) (name : String)
    (hinst : instanceOfNamed env obj name)
    (hcls : env.GetObjectClass obj ≠ 0)
    (hfld : env.GetFieldID (env.GetObjectClass obj) "mNativeId" "J" ≠ 0) :
    (getInstanceId (some env) obj name).instanceId =
      env.GetLongField obj (env.GetFieldID (env.GetObjectClass obj) "mNativeId" "J") :=
  getInstanceId_eq_field env obj name hinst hcls hfld

/-- Instance of C5 on a host where every call succeeds. -/
theorem getInstanceId_reads_mNativeId_witness :
    (getInstanceId (some envOk) 5 "org/matrix/olm/OlmAccount").instanceId = 4096 :=
  getInstanceId_reads_mNativeId envOk 5 "org/matrix/olm/OlmAccount" (by decide) (by decide)
    (by decide)

/-- C6 as stated fails: on a host where the class named `aCallingClass` is not
found, `getInstanceId` returns the non-zero handle 4096 although the object is not
an instance of that class. -/
theorem getInstanceId_nonzero_without_instance :
    ¬ ((getInstanceId (some envNoClass) 5 "org/matrix/olm/OlmAccount").instanceId ≠ 0 →
        instanceOfNamed envNoClass 5 "org/matrix/olm/OlmAccount") := by
  decide

/-- C6 amended: if `getInstanceId` returns a non-zero handle, then either the class
named `aCallingClass` was not found or the object is an instance of it. -/
theorem getInstanceId_nonzero_instance_or_unknown_class (env : JNIEnv) (obj : jobject)
    (name : String) (h : (getInstanceId (some env) obj name).instanceId ≠ 0) :
    env.FindClass name = 0 ∨ instanceOfNamed env obj name := by
  by_cases h1 : env.FindClass name = 0
  · exact Or.inl h1
  · by_cases h2 : env.IsInstanceOf obj (env.FindClass name) = JNI_TRUE
    · exact Or.inr ⟨h1, h2⟩
    · have h3 : JNI_TRUE ≠ env.IsInstanceOf obj (env.FindClass name) := fun e => h2 e.symm
      simp [getInstanceId, h1, h3] at h

/-- Instance of C6 as amended on a host where every call succeeds. -/
theorem getInstanceId_nonzero_instance_or_unknown_class_witness :
    (getInstanceId (some envOk) 5 "org/matrix/olm/OlmAccount").instanceId ≠ 0 ∧
    (envOk.FindClass "org/matrix/olm/OlmAccount" = 0 ∨
      instanceOfNamed envOk 5 "org/matrix/olm/OlmAccount") :=
  ⟨by decide,
    getInstanceId_nonzero_instance_or_unknown_class envOk 5 "org/matrix/olm/OlmAccount"
      (by decide)⟩

/-- C7: `getInstanceId` returns 0 when `aJniEnv` is null (and then makes no call),
when the class is found and the object is not an instance of it (and then only
`FindClass` and `IsInstanceOf` are called, so no field is read), when
`GetObjectClass` answers null, and when the class has no `long` field `mNativeId`. -/
theorem getInstanceId_failure_cases (env : JNIEnv) (obj : jobject) (name : String) :
    ((getInstanceId none obj name).instanceId = 0 ∧ (getInstanceId none obj name).calls = []) ∧
    (env.FindClass name ≠ 0 → env.IsInstanceOf obj (env.FindClass name) ≠ JNI_TRUE →
      (getInstanceId (some env) obj name).instanceId = 0 ∧
      (getInstanceId (some env) obj name).calls =
        [.FindClass name, .IsInstanceOf obj (env.FindClass name)] ∧
      ∀ c ∈ (getInstanceId (some env) obj name).calls, c.isGetLongField = false) ∧
    (env.GetObjectClass obj = 0 → (getInstanceId (some env) obj name).instanceId = 0) ∧
    (env.GetFieldID (env.GetObjectClass obj) "mNativeId" "J" = 0 →
      (getInstanceId (some env) obj name).instanceId = 0) := by
  refine ⟨⟨rfl, rfl⟩, ?_, ?_, ?_⟩
  · intro h1 h2
    have h3 : JNI_TRUE ≠ env.IsInstanceOf obj (env.FindClass name) := fun e => h2 e.symm
    simp [getInstanceId, h1, h3, JniCall.isGetLongField]
  · intro h
    unfold getInstanceId
    simp only [h]
    split_ifs <;> first | rfl | contradiction
  · intro h
    unfold getInstanceId
    simp only [h]
    split_ifs <;> first | rfl | contradiction

/-- Instances of C7, one host for each failure case. -/
theorem getInstanceId_failure_cases_witness :
    ((getInstanceId none 5 "org/matrix/olm/OlmAccount").instanceId = 0 ∧
      (getInstanceId none 5 "org/matrix/olm/OlmAccount").calls = []) ∧
    ((getInstanceId (some envNotInstance) 5 "org/matrix/olm/OlmAccount").instanceId = 0 ∧
      (getInstanceId (some envNotInstance) 5 "org/matrix/olm/OlmAccount").calls =
        [.FindClass "org/matrix/olm/OlmAccount", .IsInstanceOf 5 11] ∧
      ∀ c ∈ (getInstanceId (some envNotInstance) 5 "org/matrix/olm/OlmAccount").calls,
        c.isGetLongField = false) ∧
    (getInstanceId (some envNoObjectClass) 5 "org/matrix/olm/OlmAccount").instanceId = 0 ∧
    (getInstanceId (some envNoField) 5 "org/matrix/olm/OlmAccount").instanceId = 0 :=
  ⟨(getInstanceId_failure_cases envOk 5 "org/matrix/olm/OlmAccount").1,
    (getInstanceId_failure_cases envNotInstance 5 "org/matrix/olm/OlmAccount").2.1
      (by decide) (by decide),
    (getInstanceId_failure_cases envNoObjectClass 5 "org/matrix/olm/OlmAccount").2.2.1
      (by decide),
    (getInstanceId_failure_cases envNoField 5 "org/matrix/olm/OlmAccount").2.2.2 (by decide)⟩

/-! ## The typed getters -/

/-- C8: each typed getter returns the pointer whose integer value is the handle
returned by `getInstanceId` for its own class constant: converting the pointer
back to a `jlong` gives that handle, the pointer is null exactly when the handle
is 0, and when the field `mNativeId` is read the pointer converts back to the
value of that field. -/
theorem typed_getters_preserve_handle (K : ClassNames) (aJniEnv : Option JNIEnv)
    (obj : jobject) :
    ∀ g ∈ [(getAccountInstanceId K aJniEnv obj, K.CLASS_OLM_ACCOUNT),
           (getSessionInstanceId K aJniEnv obj, K.CLASS_OLM_SESSION),
           (getInboundGroupSessionInstanceId K aJniEnv obj, K.CLASS_OLM_INBOUND_GROUP_SESSION),
           (getOutboundGroupSessionInstanceId K aJniEnv obj, K.CLASS_OLM_OUTBOUND_GROUP_SESSION),
           (getUtilityInstanceId K aJniEnv obj, K.CLASS_OLM_UTILITY)],
      g.1 = ptrOfJlong (getInstanceId aJniEnv obj g.2).instanceId ∧
      jlongOfPtr g.1 = (getInstanceId aJniEnv obj g.2).instanceId ∧
      (g.1 = 0 ↔ (getInstanceId aJniEnv obj g.2).instanceId = 0) ∧
      ∀ env, aJniEnv = some env → instanceOfNamed env obj g.2 → env.GetObjectClass obj ≠ 0 →
        env.GetFieldID (env.GetObjectClass obj) "mNativeId" "J" ≠ 0 →
        jlongOfPtr g.1 =
          env.GetLongField obj (env.GetFieldID (env.GetObjectClass obj) "mNativeId" "J") := by
  have key : ∀ name : String,
      ptrOfJlong (getInstanceId aJniEnv obj name).instanceId =
        ptrOfJlong (getInstanceId aJniEnv obj name).instanceId ∧
      jlongOfPtr (ptrOfJlong (getInstanceId aJniEnv obj name).instanceId) =
        (getInstanceId aJniEnv obj name).instanceId ∧
      (ptrOfJlong (getInstanceId aJniEnv obj name).instanceId = 0 ↔
        (getInstanceId aJniEnv obj name).instanceId = 0) ∧
      ∀ env, aJniEnv = some env → instanceOfNamed env obj name → env.GetObjectClass obj ≠ 0 →
        env.GetFieldID (env.GetObjectClass obj) "mNativeId" "J" ≠ 0 →
        jlongOfPtr (ptrOfJlong (getInstanceId aJniEnv obj name).instanceId) =
          env.GetLongField obj (env.GetFieldID (env.GetObjectClass obj) "mNativeId" "J") := by
    intro name
    have hj := getInstanceId_isJlong aJniEnv obj name
    refine ⟨rfl, jlongOfPtr_ptrOfJlong _ hj, ptrOfJlong_eq_zero_iff _ hj, ?_⟩
    intro env he hinst hcls hfld
    subst he
    rw [jlongOfPtr_ptrOfJlong _ hj]
    exact getInstanceId_eq_field env obj name hinst hcls hfld
  intro g hg
  simp only [List.mem_cons, List.mem_singleton, List.not_mem_nil, or_false] at hg
  rcases hg with rfl | rfl | rfl | rfl | rfl
  · exact key _
  · exact key _
  · exact key _
  · exact key _
  · exact key _

/-- Instance of C8 for the account getter on a host where every call succeeds. -/
theorem typed_getters_preserve_handle_witness :
    getAccountInstanceId olmClassNames (some envOk) 5 = 4096 ∧
    jlongOfPtr (getAccountInstanceId olmClassNames (some envOk) 5) =
      envOk.GetLongField 5 (envOk.GetFieldID (envOk.GetObjectClass 5) "mNativeId" "J") :=
  ⟨by decide,
    (typed_getters_preserve_handle olmClassNames (some envOk) 5
      (getAccountInstanceId olmClassNames (some envOk) 5, olmClassNames.CLASS_OLM_ACCOUNT)
      (List.mem_cons_self _ _)).2.2.2 envOk rfl (by decide) (by decide) (by decide)⟩

end OlmJni
